import Mathlib

/-!
Verification of the proxy-configuration module
(`src/py/selenium/webdriver/common/proxy.py`).

The module is shallowly embedded:

* `PyVal` models the Python values the module manipulates: `None`,
  booleans, integers, strings, and the proxy-type dictionaries produced by
  `ProxyTypeFactory.make` (a dict with keys `ff_value` and `string`).
* The `Proxy` class stores every settable attribute as a *class* attribute,
  and both descriptor classes write through `setattr(type(obj), ...)`; hence
  the mutable state is one record `ClassState` shared by all instances.
  The only write an instance ever receives in its own `__dict__` is the
  direct `self.sslProxy = ...` assignment in `__init__`, so an instance is
  modelled by `ProxyInst`, an optional instance-level `sslProxy` entry.
* Raising an exception is modelled by returning `some e : Option PyError`
  together with the state as it stood when the exception was raised;
  `(none, s)` models normal return.
-/

/-- A Python value as used by the proxy module.  `ptDict ff s` is the
dictionary `{"ff_value": ff, "string": s}` built by `ProxyTypeFactory.make`. -/
inductive PyVal where
  | none : PyVal
  | bool : Bool → PyVal
  | int : Int → PyVal
  | str : String → PyVal
  | ptDict : Nat → String → PyVal
deriving DecidableEq

deriving instance DecidableEq for Except

/-- Python truthiness of a `PyVal` (`if value:`).  A `ptDict` is a non-empty
dict, hence truthy. -/
def PyVal.truthy : PyVal → Bool
  | PyVal.none => false
  | PyVal.bool b => b
  | PyVal.int n => n != 0
  | PyVal.str s => s != ""
  | PyVal.ptDict _ _ => true

/-- `isinstance(value, bool)`. -/
def PyVal.isBool : PyVal → Bool
  | PyVal.bool _ => true
  | _ => false

/-- The `"string"` entry of a proxy-type dictionary, when the value is one. -/
def PyVal.stringField : PyVal → Option String
  | PyVal.ptDict _ s => some s
  | _ => Option.none

/-- The exceptions the module raises.
`typeMismatch` is the `ValueError("Autodetect proxy value needs to be a boolean")`;
`incompatibleState requested current` is the generic `Exception` raised by
`_verify_proxy_type_compatibility`; `lookupError msg` is the generic
`Exception` raised by `ProxyType.load`, carrying its message. -/
inductive PyError where
  | typeMismatch : PyError
  | incompatibleState : PyVal → PyVal → PyError
  | lookupError : String → PyError
deriving DecidableEq

/-- `ProxyTypeFactory.make(ff_value, string)`. -/
def ProxyTypeFactory.make (ff_value : Nat) (string : String) : PyVal :=
  PyVal.ptDict ff_value string

def ProxyType.DIRECT : PyVal := ProxyTypeFactory.make 0 "DIRECT"
def ProxyType.MANUAL : PyVal := ProxyTypeFactory.make 1 "MANUAL"
def ProxyType.PAC : PyVal := ProxyTypeFactory.make 2 "PAC"
def ProxyType.RESERVED_1 : PyVal := ProxyTypeFactory.make 3 "RESERVED1"
def ProxyType.AUTODETECT : PyVal := ProxyTypeFactory.make 4 "AUTODETECT"
def ProxyType.SYSTEM : PyVal := ProxyTypeFactory.make 5 "SYSTEM"
def ProxyType.UNSPECIFIED : PyVal := ProxyTypeFactory.make 6 "UNSPECIFIED"

/-- The dict-valued attributes of class `ProxyType`, in the alphabetical
order `dir(cls)` enumerates them. -/
def ProxyType.variants : List PyVal :=
  [ProxyType.AUTODETECT, ProxyType.DIRECT, ProxyType.MANUAL, ProxyType.PAC,
   ProxyType.RESERVED_1, ProxyType.SYSTEM, ProxyType.UNSPECIFIED]

/-- Python `str.upper()`: upper-case each character. -/
def pyUpper (s : String) : String := String.mk (s.data.map Char.toUpper)

/-- Python `str.lower()`: lower-case each character. -/
def pyLower (s : String) : String := String.mk (s.data.map Char.toLower)

/-- `str(value)` restricted to the cases `ProxyType.load` can reach after
its dict branch: the dict case extracts `value["string"]`, every other
case goes through `str(value)`. -/
def ProxyType.candidateString : PyVal → String
  | PyVal.ptDict _ s => s
  | PyVal.str t => t
  | PyVal.bool true => "True"
  | PyVal.bool false => "False"
  | PyVal.int n => toString n
  | PyVal.none => "None"

/-- `ProxyType.load(value)`: take `value["string"]` when `value` is a dict
with a `"string"` key, upper-case `str(value)`, scan the class attributes for
the matching proxy-type dict, and raise naming the offending value when none
matches. -/
def ProxyType.load (value : PyVal) : Except PyError PyVal :=
  let v := pyUpper (ProxyType.candidateString value)
  match ProxyType.variants.find? (fun t => t.stringField == some v) with
  | some t => Except.ok t
  | Option.none =>
      Except.error (PyError.lookupError (String.append "No proxy type is found for " v))

/-- The class attributes of `Proxy` that hold proxy settings.  The
descriptors mutate them with `setattr(type(obj), name, value)`, so this
record is shared by every instance of the class. -/
structure ClassState where
  proxyType : PyVal
  autodetect : PyVal
  ftpProxy : PyVal
  httpProxy : PyVal
  noProxy : PyVal
  proxyAutoconfigUrl : PyVal
  sslProxy : PyVal
  socksProxy : PyVal
  socksUsername : PyVal
  socksPassword : PyVal
  socksVersion : PyVal
deriving DecidableEq

/-- The class-attribute defaults declared in the body of `Proxy`. -/
def ClassState.initial : ClassState :=
  { proxyType := ProxyType.UNSPECIFIED
    autodetect := PyVal.bool false
    ftpProxy := PyVal.str ""
    httpProxy := PyVal.str ""
    noProxy := PyVal.str ""
    proxyAutoconfigUrl := PyVal.str ""
    sslProxy := PyVal.str ""
    socksProxy := PyVal.str ""
    socksUsername := PyVal.str ""
    socksPassword := PyVal.str ""
    socksVersion := PyVal.none }

/-- The attribute names a `ProxyTypeDescriptor` can manage. -/
inductive FieldName where
  | autodetect | ftpProxy | httpProxy | noProxy | proxyAutoconfigUrl
  | sslProxy | socksProxy | socksUsername | socksPassword | socksVersion
deriving DecidableEq, Fintype

/-- The attribute name as the string used for capability keys. -/
def FieldName.camel : FieldName → String
  | FieldName.autodetect => "autodetect"
  | FieldName.ftpProxy => "ftpProxy"
  | FieldName.httpProxy => "httpProxy"
  | FieldName.noProxy => "noProxy"
  | FieldName.proxyAutoconfigUrl => "proxyAutoconfigUrl"
  | FieldName.sslProxy => "sslProxy"
  | FieldName.socksProxy => "socksProxy"
  | FieldName.socksUsername => "socksUsername"
  | FieldName.socksPassword => "socksPassword"
  | FieldName.socksVersion => "socksVersion"

/-- Read a class attribute (`getattr(type(obj), name)`). -/
def ClassState.field (s : ClassState) : FieldName → PyVal
  | FieldName.autodetect => s.autodetect
  | FieldName.ftpProxy => s.ftpProxy
  | FieldName.httpProxy => s.httpProxy
  | FieldName.noProxy => s.noProxy
  | FieldName.proxyAutoconfigUrl => s.proxyAutoconfigUrl
  | FieldName.sslProxy => s.sslProxy
  | FieldName.socksProxy => s.socksProxy
  | FieldName.socksUsername => s.socksUsername
  | FieldName.socksPassword => s.socksPassword
  | FieldName.socksVersion => s.socksVersion

/-- Write a class attribute (`setattr(type(obj), name, value)`). -/
def ClassState.setField (s : ClassState) : FieldName → PyVal → ClassState
  | FieldName.autodetect, v => { s with autodetect := v }
  | FieldName.ftpProxy, v => { s with ftpProxy := v }
  | FieldName.httpProxy, v => { s with httpProxy := v }
  | FieldName.noProxy, v => { s with noProxy := v }
  | FieldName.proxyAutoconfigUrl, v => { s with proxyAutoconfigUrl := v }
  | FieldName.sslProxy, v => { s with sslProxy := v }
  | FieldName.socksProxy, v => { s with socksProxy := v }
  | FieldName.socksUsername, v => { s with socksUsername := v }
  | FieldName.socksPassword, v => { s with socksPassword := v }
  | FieldName.socksVersion, v => { s with socksVersion := v }

/-- One `Proxy` instance: its own `__dict__`.  The only attribute the module
ever stores there is `sslProxy`, through the direct assignment
`self.sslProxy = raw["sslProxy"]` in `__init__`. -/
structure ProxyInst where
  sslProxy : Option PyVal
deriving DecidableEq

/-- `Proxy._verify_proxy_type_compatibility(compatible_proxy)`: raise unless
the current `proxyType` is `UNSPECIFIED` or already `compatible_proxy`. -/
def Proxy.verify_proxy_type_compatibility (s : ClassState) (compatible_proxy : PyVal) :
    Option PyError :=
  if s.proxyType = ProxyType.UNSPECIFIED ∨ s.proxyType = compatible_proxy then Option.none
  else some (PyError.incompatibleState compatible_proxy s.proxyType)

/-- `ProxyDescriptor.__set__`: verify compatibility against the assigned
value, then store it as the class attribute `proxyType`. -/
def ProxyDescriptor.set (s : ClassState) (value : PyVal) : Option PyError × ClassState :=
  match Proxy.verify_proxy_type_compatibility s value with
  | some e => (some e, s)
  | Option.none => (Option.none, { s with proxyType := value })

/-- `ProxyTypeDescriptor.__set__` for the descriptor with attribute `name`
and implied type `p_type`: reject non-boolean `autodetect` values, verify
compatibility against `p_type`, set `proxyType := p_type`, store the value. -/
def ProxyTypeDescriptor.set (name : FieldName) (p_type : PyVal) (s : ClassState)
    (value : PyVal) : Option PyError × ClassState :=
  if name = FieldName.autodetect ∧ value.isBool = false then
    (some PyError.typeMismatch, s)
  else
    match Proxy.verify_proxy_type_compatibility s p_type with
    | some e => (some e, s)
    | Option.none =>
        (Option.none, ClassState.setField { s with proxyType := p_type } name value)

/-- The accessor (descriptor) attributes declared in the body of `Proxy`. -/
inductive Setter where
  | proxy_type | auto_detect | ftp_proxy | http_proxy | no_proxy
  | proxy_autoconfig_url | ssl_proxy | socks_proxy | socks_username
  | socks_password | socks_version
deriving DecidableEq

/-- Assignment through an accessor: the dispatch table written in the class
body of `Proxy` (which descriptor, with which attribute name and implied
proxy type). -/
def Proxy.runSetter : Setter → ClassState → PyVal → Option PyError × ClassState
  | Setter.proxy_type, s, v => ProxyDescriptor.set s v
  | Setter.auto_detect, s, v =>
      ProxyTypeDescriptor.set FieldName.autodetect ProxyType.AUTODETECT s v
  | Setter.ftp_proxy, s, v =>
      ProxyTypeDescriptor.set FieldName.ftpProxy ProxyType.MANUAL s v
  | Setter.http_proxy, s, v =>
      ProxyTypeDescriptor.set FieldName.httpProxy ProxyType.MANUAL s v
  | Setter.no_proxy, s, v =>
      ProxyTypeDescriptor.set FieldName.noProxy ProxyType.MANUAL s v
  | Setter.proxy_autoconfig_url, s, v =>
      ProxyTypeDescriptor.set FieldName.proxyAutoconfigUrl ProxyType.PAC s v
  | Setter.ssl_proxy, s, v =>
      ProxyTypeDescriptor.set FieldName.sslProxy ProxyType.MANUAL s v
  | Setter.socks_proxy, s, v =>
      ProxyTypeDescriptor.set FieldName.socksProxy ProxyType.MANUAL s v
  | Setter.socks_username, s, v =>
      ProxyTypeDescriptor.set FieldName.socksUsername ProxyType.MANUAL s v
  | Setter.socks_password, s, v =>
      ProxyTypeDescriptor.set FieldName.socksPassword ProxyType.MANUAL s v
  | Setter.socks_version, s, v =>
      ProxyTypeDescriptor.set FieldName.socksVersion ProxyType.MANUAL s v

/-- The proxy type a given accessor checks against: the assigned value
itself for `proxy_type`, otherwise the `p_type` of its descriptor. -/
def Setter.impliedType : Setter → PyVal → PyVal
  | Setter.proxy_type, v => v
  | Setter.auto_detect, _ => ProxyType.AUTODETECT
  | Setter.proxy_autoconfig_url, _ => ProxyType.PAC
  | _, _ => ProxyType.MANUAL

/-- The raw capability mapping accepted by `Proxy.__init__`: the recognized
keys, each optionally present.  Unrecognized keys are never consulted by the
constructor, so they are not modelled. -/
structure Raw where
  proxyType : Option PyVal
  ftpProxy : Option PyVal
  httpProxy : Option PyVal
  noProxy : Option PyVal
  proxyAutoconfigUrl : Option PyVal
  sslProxy : Option PyVal
  autodetect : Option PyVal
  socksProxy : Option PyVal
  socksUsername : Option PyVal
  socksPassword : Option PyVal
  socksVersion : Option PyVal
deriving DecidableEq

/-- A raw mapping with none of the recognized keys. -/
def Raw.empty : Raw :=
  ⟨Option.none, Option.none, Option.none, Option.none, Option.none, Option.none,
   Option.none, Option.none, Option.none, Option.none, Option.none⟩

/-- One `if "key" in raw and raw["key"]:` guard of `Proxy.__init__`: apply
`setter` when the key is present with a truthy value, otherwise do nothing. -/
def Proxy.rawStep (field : Option PyVal)
    (setter : ClassState → PyVal → Option PyError × ClassState)
    (s : ClassState) : Option PyError × ClassState :=
  match field with
  | some v => if v.truthy then setter s v else (Option.none, s)
  | Option.none => (Option.none, s)

/-- Sequencing of statements: a raised exception propagates, skipping the
rest; otherwise the next statement runs on the current state. -/
def Proxy.seqC (r : Option PyError × ClassState)
    (f : ClassState → Option PyError × ClassState) : Option PyError × ClassState :=
  match r with
  | (some e, s) => (some e, s)
  | (Option.none, s) => f s

/-- `self.proxy_type = ProxyType.load(raw["proxyType"])`: the lookup may
raise, otherwise the `proxy_type` descriptor assignment runs. -/
def Proxy.loadAndSetType (s : ClassState) (v : PyVal) : Option PyError × ClassState :=
  match ProxyType.load v with
  | Except.error e => (some e, s)
  | Except.ok pt => ProxyDescriptor.set s pt

/-- `Proxy.__init__(raw)`, acting on the class state `s0` the instance sees
at construction time.  Statement order as in the source: proxyType,
ftpProxy, httpProxy, noProxy, proxyAutoconfigUrl through their accessors,
then the direct instance write `self.sslProxy = raw["sslProxy"]`, then
autodetect, socksProxy, socksUsername, socksPassword, socksVersion through
their accessors.  Returns the raised exception if any, the resulting class
state, and the new instance. -/
def Proxy.init (s0 : ClassState) (raw : Option Raw) :
    Option PyError × ClassState × ProxyInst :=
  match raw with
  | Option.none => (Option.none, s0, ⟨Option.none⟩)
  | some r =>
    let r5 :=
      Proxy.seqC (Proxy.seqC (Proxy.seqC (Proxy.seqC
        (Proxy.rawStep r.proxyType Proxy.loadAndSetType s0)
        (Proxy.rawStep r.ftpProxy (ProxyTypeDescriptor.set FieldName.ftpProxy ProxyType.MANUAL)))
        (Proxy.rawStep r.httpProxy (ProxyTypeDescriptor.set FieldName.httpProxy ProxyType.MANUAL)))
        (Proxy.rawStep r.noProxy (ProxyTypeDescriptor.set FieldName.noProxy ProxyType.MANUAL)))
        (Proxy.rawStep r.proxyAutoconfigUrl (ProxyTypeDescriptor.set FieldName.proxyAutoconfigUrl ProxyType.PAC))
    match r5 with
    | (some e, s) => (some e, s, ⟨Option.none⟩)
    | (Option.none, s) =>
      let inst : ProxyInst :=
        ⟨match r.sslProxy with
          | some v => if v.truthy then some v else Option.none
          | Option.none => Option.none⟩
      let r11 :=
        Proxy.seqC (Proxy.seqC (Proxy.seqC (Proxy.seqC
          (Proxy.rawStep r.autodetect (ProxyTypeDescriptor.set FieldName.autodetect ProxyType.AUTODETECT) s)
          (Proxy.rawStep r.socksProxy (ProxyTypeDescriptor.set FieldName.socksProxy ProxyType.MANUAL)))
          (Proxy.rawStep r.socksUsername (ProxyTypeDescriptor.set FieldName.socksUsername ProxyType.MANUAL)))
          (Proxy.rawStep r.socksPassword (ProxyTypeDescriptor.set FieldName.socksPassword ProxyType.MANUAL)))
          (Proxy.rawStep r.socksVersion (ProxyTypeDescriptor.set FieldName.socksVersion ProxyType.MANUAL))
      (r11.1, r11.2, inst)

/-- Definition following the spec (§4.2 Construct, §7): starting from the
all-defaults state, apply each provided-and-truthy capability field through
its validating setter in the fixed order proxyType, ftpProxy, httpProxy,
noProxy, proxyAutoconfigUrl, then a direct non-validated write of sslProxy,
then autodetect, socksProxy, socksUsername, socksPassword, socksVersion; the
first error stops the run and propagates, leaving the fields already applied
set and every later field at its default.  Stated from the spec text, to be
compared with `Proxy.init`. -/
def ProxySettings.construct (raw : Raw) : Option PyError × ClassState × ProxyInst :=
  let afterPac :=
    Proxy.seqC (Proxy.seqC (Proxy.seqC (Proxy.seqC
      (Proxy.rawStep raw.proxyType Proxy.loadAndSetType ClassState.initial)
      (Proxy.rawStep raw.ftpProxy (ProxyTypeDescriptor.set FieldName.ftpProxy ProxyType.MANUAL)))
      (Proxy.rawStep raw.httpProxy (ProxyTypeDescriptor.set FieldName.httpProxy ProxyType.MANUAL)))
      (Proxy.rawStep raw.noProxy (ProxyTypeDescriptor.set FieldName.noProxy ProxyType.MANUAL)))
      (Proxy.rawStep raw.proxyAutoconfigUrl (ProxyTypeDescriptor.set FieldName.proxyAutoconfigUrl ProxyType.PAC))
  match afterPac with
  | (some e, s) => (some e, s, ⟨Option.none⟩)
  | (Option.none, s) =>
    let inst : ProxyInst :=
      ⟨match raw.sslProxy with
        | some v => if v.truthy then some v else Option.none
        | Option.none => Option.none⟩
    let last :=
      Proxy.seqC (Proxy.seqC (Proxy.seqC (Proxy.seqC
        (Proxy.rawStep raw.autodetect (ProxyTypeDescriptor.set FieldName.autodetect ProxyType.AUTODETECT) s)
        (Proxy.rawStep raw.socksProxy (ProxyTypeDescriptor.set FieldName.socksProxy ProxyType.MANUAL)))
        (Proxy.rawStep raw.socksUsername (ProxyTypeDescriptor.set FieldName.socksUsername ProxyType.MANUAL)))
        (Proxy.rawStep raw.socksPassword (ProxyTypeDescriptor.set FieldName.socksPassword ProxyType.MANUAL)))
        (Proxy.rawStep raw.socksVersion (ProxyTypeDescriptor.set FieldName.socksVersion ProxyType.MANUAL))
    (last.1, last.2, inst)

/-- `getattr(self, name)`: the instance `__dict__` takes precedence over the
class attribute; only `sslProxy` can ever be in the instance `__dict__`. -/
def Proxy.getAttr (s : ClassState) (inst : ProxyInst) (f : FieldName) : PyVal :=
  match f, inst.sslProxy with
  | FieldName.sslProxy, some v => v
  | g, _ => s.field g

/-- The `proxies` list of `Proxy.to_capabilities`, in source order. -/
def Proxy.proxies : List FieldName :=
  [FieldName.autodetect, FieldName.ftpProxy, FieldName.httpProxy,
   FieldName.proxyAutoconfigUrl, FieldName.sslProxy, FieldName.noProxy,
   FieldName.socksProxy, FieldName.socksUsername, FieldName.socksPassword,
   FieldName.socksVersion]

/-- The candidate key/value pairs `to_capabilities` inspects, in order. -/
def Proxy.fieldPairs (s : ClassState) (inst : ProxyInst) : List (String × PyVal) :=
  Proxy.proxies.map (fun f => (f.camel, Proxy.getAttr s inst f))

/-- `Proxy.to_capabilities()`: start from
`{"proxyType": self.proxyType["string"].lower()}` and append each attribute
of `proxies` whose value is truthy.  Yields `none` when `self.proxyType` is
not a proxy-type dict (the subscript `["string"]` would raise). -/
def Proxy.to_capabilities (s : ClassState) (inst : ProxyInst) :
    Option (List (String × PyVal)) :=
  match s.proxyType.stringField with
  | some ts =>
      some (("proxyType", PyVal.str (pyLower ts)) ::
        (Proxy.fieldPairs s inst).filter (fun p => p.2.truthy))
  | Option.none => Option.none

/-- Look a key up in the capability mapping of a state, when that mapping
exists. -/
def Proxy.capsLookup (s : ClassState) (inst : ProxyInst) (k : String) :
    Option (Option PyVal) :=
  Option.map (fun caps => caps.lookup k) (Proxy.to_capabilities s inst)

/-- Does an accessor call report the compatibility failure? -/
def isIncompatibleStateErr : Option PyError → Bool
  | some (PyError.incompatibleState _ _) => true
  | _ => false

/-- Behaviour of `ProxyTypeDescriptor.__set__` when the value passes the
boolean check: the compatibility failure is reported exactly when the
current `proxyType` is neither `UNSPECIFIED` nor the descriptor type, and a
failing call returns the state untouched. -/
theorem ProxyTypeDescriptor.set_field_spec (name : FieldName) (p_type : PyVal)
    (s : ClassState) (v : PyVal)
    (hb : name = FieldName.autodetect → v.isBool = true) :
    (isIncompatibleStateErr (ProxyTypeDescriptor.set name p_type s v).1 = true ↔
      ¬(s.proxyType = ProxyType.UNSPECIFIED ∨ s.proxyType = p_type)) ∧
    ((ProxyTypeDescriptor.set name p_type s v).1 ≠ Option.none →
      (ProxyTypeDescriptor.set name p_type s v).2 = s) := by
  have hcond : ¬(name = FieldName.autodetect ∧ v.isBool = false) := by
    rintro ⟨h1, h2⟩
    rw [hb h1] at h2
    simp at h2
  by_cases hc : s.proxyType = ProxyType.UNSPECIFIED ∨ s.proxyType = p_type
  · simp [ProxyTypeDescriptor.set, Proxy.verify_proxy_type_compatibility, hcond, hc,
      isIncompatibleStateErr]
  · simp [ProxyTypeDescriptor.set, Proxy.verify_proxy_type_compatibility, hcond, hc,
      isIncompatibleStateErr]

/-- Behaviour of `ProxyDescriptor.__set__`: the compatibility failure is
reported exactly when the current `proxyType` is neither `UNSPECIFIED` nor
the assigned value, and a failing call returns the state untouched. -/
theorem ProxyDescriptor.set_type_spec (s : ClassState) (v : PyVal) :
    (isIncompatibleStateErr (ProxyDescriptor.set s v).1 = true ↔
      ¬(s.proxyType = ProxyType.UNSPECIFIED ∨ s.proxyType = v)) ∧
    ((ProxyDescriptor.set s v).1 ≠ Option.none → (ProxyDescriptor.set s v).2 = s) := by
  by_cases hc : s.proxyType = ProxyType.UNSPECIFIED ∨ s.proxyType = v
  · simp [ProxyDescriptor.set, Proxy.verify_proxy_type_compatibility, hc,
      isIncompatibleStateErr]
  · simp [ProxyDescriptor.set, Proxy.verify_proxy_type_compatibility, hc,
      isIncompatibleStateErr]

/-- Looking up a key that occurs nowhere in a key/value list yields nothing,
also after the truthiness filter. -/
theorem lookup_filter_eq_none (l : List (String × PyVal)) (k : String)
    (h : ∀ p ∈ l, p.1 ≠ k) :
    (l.filter (fun p => p.2.truthy)).lookup k = Option.none := by
  induction l with
  | nil => rfl
  | cons a t ih =>
    obtain ⟨a1, a2⟩ := a
    have ha : a1 ≠ k := h (a1, a2) (List.mem_cons_self _ t)
    have ht : ∀ p ∈ t, p.1 ≠ k := fun p hp => h p (List.mem_cons_of_mem _ hp)
    have hk : (k == a1) = false := by
      simp [beq_eq_false_iff_ne]
      exact fun hkk => ha hkk.symm
    by_cases hb : a2.truthy = true
    · simp [List.filter_cons, hb, List.lookup_cons, hk, ih ht]
    · simp [List.filter_cons, hb, ih ht]

/-- Looking a key up after the truthiness filter: when the keys are distinct
and the unfiltered list maps `k` to `v`, the filtered list maps `k` to `v`
exactly when `v` is truthy. -/
theorem lookup_filter_truthy (l : List (String × PyVal)) (k : String) (v : PyVal)
    (hnd : (l.map Prod.fst).Nodup) (hl : l.lookup k = some v) :
    (l.filter (fun p => p.2.truthy)).lookup k =
      (if v.truthy = true then some v else Option.none) := by
  induction l with
  | nil => simp [List.lookup] at hl
  | cons a t ih =>
    obtain ⟨a1, a2⟩ := a
    rw [List.map_cons, List.nodup_cons] at hnd
    by_cases hk : k = a1
    · have hkb : (k == a1) = true := by simp [hk]
      rw [List.lookup_cons, hkb] at hl
      have hv : a2 = v := by injection hl
      subst hv
      subst hk
      by_cases hb : a2.truthy = true
      · simp [List.filter_cons, hb, List.lookup_cons]
      · have hnone : (t.filter (fun p => p.2.truthy)).lookup k = Option.none := by
          apply lookup_filter_eq_none
          intro p hp hpk
          exact hnd.1 (List.mem_map.mpr ⟨p, hp, hpk⟩)
        simp [List.filter_cons, hb, hnone]
    · have hkb : (k == a1) = false := by simp [hk]
      rw [List.lookup_cons, hkb] at hl
      have hrec := ih hnd.2 hl
      by_cases hb : a2.truthy = true
      · simp [List.filter_cons, hb, List.lookup_cons, hkb, hrec]
      · simp [List.filter_cons, hb, hrec]

/-- `to_capabilities` inspects each settable attribute under its own key. -/
theorem fieldPairs_lookup (s : ClassState) (inst : ProxyInst) :
    ∀ f : FieldName, (Proxy.fieldPairs s inst).lookup f.camel =
      some (Proxy.getAttr s inst f) := by
  intro f
  cases f <;> rfl

/-- The ten capability keys of the settable attributes are distinct. -/
theorem fieldPairs_keys_nodup (s : ClassState) (inst : ProxyInst) :
    ((Proxy.fieldPairs s inst).map Prod.fst).Nodup := by
  have h : (Proxy.fieldPairs s inst).map Prod.fst =
      ["autodetect", "ftpProxy", "httpProxy", "proxyAutoconfigUrl", "sslProxy",
       "noProxy", "socksProxy", "socksUsername", "socksPassword", "socksVersion"] := rfl
  rw [h]
  decide

/-- No settable attribute is serialized under the key `"proxyType"`. -/
theorem camel_ne_proxyType : ∀ f : FieldName, (f.camel == "proxyType") = false := by
  decide

/-- C1: for every accessor assignment through a validating setter
(`proxy_type`, `auto_detect`, `ftp_proxy`, `http_proxy`, `no_proxy`,
`proxy_autoconfig_url`, `ssl_proxy`, `socks_proxy`, `socks_username`,
`socks_password`, `socks_version`), given a value that passes the
`auto_detect` boolean check, the call raises the IncompatibleState-kind
error exactly when the current `proxyType` is neither `UNSPECIFIED` nor the
type implied by that setter; and whenever the call fails, the settings
state (every field, `proxyType` included) is exactly as it was before. -/
theorem setter_incompat_iff_and_preserves_state :
    ∀ (st : Setter) (s : ClassState) (v : PyVal),
      (st = Setter.auto_detect → v.isBool = true) →
      ((isIncompatibleStateErr (Proxy.runSetter st s v).1 = true ↔
          ¬(s.proxyType = ProxyType.UNSPECIFIED ∨
            s.proxyType = Setter.impliedType st v)) ∧
        ((Proxy.runSetter st s v).1 ≠ Option.none → (Proxy.runSetter st s v).2 = s)) := by
  intro st s v hb
  cases st with
  | proxy_type => exact ProxyDescriptor.set_type_spec s v
  | auto_detect => exact ProxyTypeDescriptor.set_field_spec _ _ s v (fun _ => hb rfl)
  | ftp_proxy => exact ProxyTypeDescriptor.set_field_spec _ _ s v (fun h => absurd h (by decide))
  | http_proxy => exact ProxyTypeDescriptor.set_field_spec _ _ s v (fun h => absurd h (by decide))
  | no_proxy => exact ProxyTypeDescriptor.set_field_spec _ _ s v (fun h => absurd h (by decide))
  | proxy_autoconfig_url => exact ProxyTypeDescriptor.set_field_spec _ _ s v (fun h => absurd h (by decide))
  | ssl_proxy => exact ProxyTypeDescriptor.set_field_spec _ _ s v (fun h => absurd h (by decide))
  | socks_proxy => exact ProxyTypeDescriptor.set_field_spec _ _ s v (fun h => absurd h (by decide))
  | socks_username => exact ProxyTypeDescriptor.set_field_spec _ _ s v (fun h => absurd h (by decide))
  | socks_password => exact ProxyTypeDescriptor.set_field_spec _ _ s v (fun h => absurd h (by decide))
  | socks_version => exact ProxyTypeDescriptor.set_field_spec _ _ s v (fun h => absurd h (by decide))

/-- Witness for C1: after the type has become PAC, assigning `http_proxy`
raises the IncompatibleState-kind error and the state is untouched. -/
theorem setter_incompat_iff_witness :
    isIncompatibleStateErr
      (Proxy.runSetter Setter.http_proxy
        { ClassState.initial with proxyType := ProxyType.PAC }
        (PyVal.str "proxy.example.com:8080")).1 = true ∧
    (Proxy.runSetter Setter.http_proxy
      { ClassState.initial with proxyType := ProxyType.PAC }
      (PyVal.str "proxy.example.com:8080")).2 =
      { ClassState.initial with proxyType := ProxyType.PAC } := by
  have h := setter_incompat_iff_and_preserves_state Setter.http_proxy
    { ClassState.initial with proxyType := ProxyType.PAC }
    (PyVal.str "proxy.example.com:8080") (by decide)
  exact ⟨h.1.mpr (by decide), h.2 (by decide)⟩

/-- C2 evidence: the descriptors store every field with
`setattr(type(obj), ...)`, i.e. on the class, so the state is shared by all
instances.  Two default-constructed instances observe the same class state:
after a successful `http_proxy` assignment made through the first instance,
the attribute read through the second instance has changed from `""` to the
assigned value (and the observed `proxyType` has become MANUAL), refuting
per-instance isolation. -/
theorem shared_class_state_leak :
    Proxy.init ClassState.initial Option.none =
      (Option.none, ClassState.initial, ⟨Option.none⟩) ∧
    (Proxy.runSetter Setter.http_proxy ClassState.initial
      (PyVal.str "proxy.example.com:8080")).1 = Option.none ∧
    Proxy.getAttr
      (Proxy.runSetter Setter.http_proxy ClassState.initial
        (PyVal.str "proxy.example.com:8080")).2
      ⟨Option.none⟩ FieldName.httpProxy = PyVal.str "proxy.example.com:8080" ∧
    Proxy.getAttr ClassState.initial ⟨Option.none⟩ FieldName.httpProxy = PyVal.str "" ∧
    (Proxy.runSetter Setter.http_proxy ClassState.initial
      (PyVal.str "proxy.example.com:8080")).2.proxyType = ProxyType.MANUAL := by
  decide

/-- C3: `ProxyType.load` maps each supported identifier, in any letter case
and also wrapped in a record with that identifier in its `string` field, to
the unique matching variant; on a string matching no variant it fails with
the LookupError-kind error whose message names the offending value. -/
theorem load_lookup_correct :
    (∀ pt, pt ∈ ProxyType.variants → ∀ (s : String) (ff : Nat),
      PyVal.stringField pt = some (pyUpper s) →
      ProxyType.load (PyVal.str s) = Except.ok pt ∧
      ProxyType.load (PyVal.ptDict ff s) = Except.ok pt) ∧
    (∀ s : String, (∀ pt ∈ ProxyType.variants, PyVal.stringField pt ≠ some (pyUpper s)) →
      ProxyType.load (PyVal.str s) =
        Except.error (PyError.lookupError
          (String.append "No proxy type is found for " (pyUpper s)))) := by
  constructor
  · intro pt hpt s ff h
    simp only [ProxyType.variants, List.mem_cons, List.not_mem_nil, or_false] at hpt
    rcases hpt with rfl | rfl | rfl | rfl | rfl | rfl | rfl <;>
      (simp only [ProxyType.AUTODETECT, ProxyType.DIRECT, ProxyType.MANUAL, ProxyType.PAC,
          ProxyType.RESERVED_1, ProxyType.SYSTEM, ProxyType.UNSPECIFIED,
          ProxyTypeFactory.make, PyVal.stringField, Option.some.injEq] at h;
        refine ⟨?_, ?_⟩ <;>
          (simp only [ProxyType.load, ProxyType.candidateString]; rw [← h]; decide))
  · intro s hne
    have hnone : ProxyType.variants.find?
        (fun t => t.stringField == some (pyUpper s)) = Option.none := by
      apply List.find?_eq_none.mpr
      intro t ht
      simpa [beq_iff_eq] using hne t ht
    simp only [ProxyType.load, ProxyType.candidateString, hnone]

/-- Witness for C3: the lower-case identifier and the wrapped record both
load to PAC, and an unrecognized string reports its upper-cased value. -/
theorem load_lookup_witness :
    ProxyType.load (PyVal.str "pac") = Except.ok ProxyType.PAC ∧
    ProxyType.load (PyVal.ptDict 2 "Pac") = Except.ok ProxyType.PAC ∧
    ProxyType.load (PyVal.str "bogus") =
      Except.error (PyError.lookupError "No proxy type is found for BOGUS") := by
  have h1 := (load_lookup_correct.1 ProxyType.PAC (by decide) "pac" 0 (by decide)).1
  have h2 := (load_lookup_correct.1 ProxyType.PAC (by decide) "Pac" 2 (by decide)).2
  have h3 := load_lookup_correct.2 "bogus" (by decide)
  exact ⟨h1, h2, h3⟩

/-- C4: constructing from a raw mapping behaves exactly like the spec's
ordered procedure (`ProxySettings.construct`): each recognized, truthy key
is applied through its validating setter in the fixed order proxyType,
ftpProxy, httpProxy, noProxy, proxyAutoconfigUrl, direct sslProxy write,
autodetect, socksProxy, socksUsername, socksPassword, socksVersion, and the
first error stops the run, leaving the earlier fields applied and the later
ones at their defaults.  Concretely, `{proxyType: "PAC", httpProxy: "x"}`
fails at the httpProxy step with proxyType already PAC and httpProxy still
at its default. -/
theorem construct_order_first_error :
    (∀ raw : Raw, Proxy.init ClassState.initial (some raw) = ProxySettings.construct raw) ∧
    Proxy.init ClassState.initial
      (some { Raw.empty with proxyType := some (PyVal.str "PAC"),
                             httpProxy := some (PyVal.str "x") }) =
      (some (PyError.incompatibleState ProxyType.MANUAL ProxyType.PAC),
       { ClassState.initial with proxyType := ProxyType.PAC }, ⟨Option.none⟩) :=
  ⟨fun _ => rfl, by decide⟩

/-- C5: a raw mapping whose only truthy recognized key is `sslProxy` is
applied by the direct instance write, bypassing the compatibility check: no
error is possible, the class state (so in particular `proxyType`, still
`UNSPECIFIED`) is unchanged, and the value lands in the instance `__dict__`;
whereas the `ssl_proxy` accessor on a fresh state succeeds and sets
`proxyType` to MANUAL. -/
theorem ssl_proxy_construct_bypass :
    ∀ v : PyVal, v.truthy = true →
      Proxy.init ClassState.initial (some { Raw.empty with sslProxy := some v }) =
        (Option.none, ClassState.initial, ⟨some v⟩) ∧
      Proxy.runSetter Setter.ssl_proxy ClassState.initial v =
        (Option.none,
         { ClassState.initial with proxyType := ProxyType.MANUAL, sslProxy := v }) := by
  intro v hv
  constructor
  · simp [Proxy.init, Proxy.rawStep, Proxy.seqC, Raw.empty, hv]
  · rfl

/-- Witness for C5: a concrete host string. -/
theorem ssl_proxy_construct_bypass_witness :
    Proxy.init ClassState.initial
      (some { Raw.empty with sslProxy := some (PyVal.str "ssl.example.com:4443") }) =
      (Option.none, ClassState.initial, ⟨some (PyVal.str "ssl.example.com:4443")⟩) :=
  (ssl_proxy_construct_bypass (PyVal.str "ssl.example.com:4443") (by decide)).1

/-- C6: assigning any non-boolean to `auto_detect` fails with the
TypeMismatch-kind error and changes nothing; assigning `true` on a fresh
state succeeds, sets `proxyType` to AUTODETECT, and stores the value. -/
theorem auto_detect_bool_check :
    (∀ (s : ClassState) (v : PyVal), v.isBool = false →
      Proxy.runSetter Setter.auto_detect s v = (some PyError.typeMismatch, s)) ∧
    Proxy.runSetter Setter.auto_detect ClassState.initial (PyVal.bool true) =
      (Option.none,
       { ClassState.initial with proxyType := ProxyType.AUTODETECT,
                                 autodetect := PyVal.bool true }) := by
  constructor
  · intro s v hv
    simp [Proxy.runSetter, ProxyTypeDescriptor.set, hv]
  · decide

/-- Witness for C6: the string `"yes"` is rejected with no state change. -/
theorem auto_detect_bool_check_witness :
    Proxy.runSetter Setter.auto_detect ClassState.initial (PyVal.str "yes") =
      (some PyError.typeMismatch, ClassState.initial) :=
  auto_detect_bool_check.1 ClassState.initial (PyVal.str "yes") (by decide)

/-- C7: whenever the current `proxyType` is a proxy-type record with
identifier `ts`, `to_capabilities` maps `"proxyType"` to the lower-cased
`ts` and maps each settable attribute's camel-case key to its current value
exactly when that value is truthy (so in particular `socksVersion` keeps
its native numeric value); a fresh default state serializes to exactly
`{"proxyType": "unspecified"}`. -/
theorem to_capabilities_truthy_filter :
    (∀ (s : ClassState) (inst : ProxyInst) (ts : String),
      PyVal.stringField s.proxyType = some ts →
      Proxy.capsLookup s inst "proxyType" = some (some (PyVal.str (pyLower ts))) ∧
      ∀ f : FieldName, Proxy.capsLookup s inst f.camel =
        some (if (Proxy.getAttr s inst f).truthy = true
              then some (Proxy.getAttr s inst f) else Option.none)) ∧
    Proxy.to_capabilities ClassState.initial ⟨Option.none⟩ =
      some [("proxyType", PyVal.str "unspecified")] := by
  constructor
  · intro s inst ts h
    have hcaps : Proxy.to_capabilities s inst =
        some (("proxyType", PyVal.str (pyLower ts)) ::
          (Proxy.fieldPairs s inst).filter (fun p => p.2.truthy)) := by
      simp only [Proxy.to_capabilities, h]
    constructor
    · simp [Proxy.capsLookup, hcaps, List.lookup_cons]
    · intro f
      have hfl := lookup_filter_truthy (Proxy.fieldPairs s inst) f.camel
          (Proxy.getAttr s inst f) (fieldPairs_keys_nodup s inst)
          (fieldPairs_lookup s inst f)
      simp [Proxy.capsLookup, hcaps, List.lookup_cons, camel_ne_proxyType f, hfl]
  · decide

/-- Witness for C7: with `proxyType` MANUAL and `socksVersion` stored as the
integer `5`, the serialized mapping carries the numeric value under
`"socksVersion"`. -/
theorem to_capabilities_truthy_filter_witness :
    Proxy.capsLookup
      { ClassState.initial with proxyType := ProxyType.MANUAL,
                                socksVersion := PyVal.int 5 }
      ⟨Option.none⟩ "socksVersion" = some (some (PyVal.int 5)) := by
  have h := ((to_capabilities_truthy_filter.1
      { ClassState.initial with proxyType := ProxyType.MANUAL,
                                socksVersion := PyVal.int 5 }
      ⟨Option.none⟩ "MANUAL" (by decide)).2) FieldName.socksVersion
  simpa [Proxy.getAttr, ClassState.field, FieldName.camel, PyVal.truthy] using h

/-- C8: building from `{"proxyType": "PAC", "proxyAutoconfigUrl":
"http://x/pac"}` succeeds and serializes back to exactly
`{"proxyType": "pac", "proxyAutoconfigUrl": "http://x/pac"}`. -/
theorem pac_roundtrip :
    (Proxy.init ClassState.initial
      (some { Raw.empty with proxyType := some (PyVal.str "PAC"),
                             proxyAutoconfigUrl := some (PyVal.str "http://x/pac") })).1
      = Option.none ∧
    Proxy.to_capabilities
      (Proxy.init ClassState.initial
        (some { Raw.empty with proxyType := some (PyVal.str "PAC"),
                               proxyAutoconfigUrl := some (PyVal.str "http://x/pac") })).2.1
      (Proxy.init ClassState.initial
        (some { Raw.empty with proxyType := some (PyVal.str "PAC"),
                               proxyAutoconfigUrl := some (PyVal.str "http://x/pac") })).2.2
      = some [("proxyType", PyVal.str "pac"),
              ("proxyAutoconfigUrl", PyVal.str "http://x/pac")] := by
  decide

/-- C9: assigning `http_proxy` on a fresh state succeeds, sets `proxyType`
to MANUAL as a side effect, and the serialization then carries both
`"proxyType": "manual"` and the assigned host string. -/
theorem http_proxy_sets_manual :
    Proxy.runSetter Setter.http_proxy ClassState.initial
      (PyVal.str "proxy.example.com:8080") =
      (Option.none,
       { ClassState.initial with proxyType := ProxyType.MANUAL,
                                 httpProxy := PyVal.str "proxy.example.com:8080" }) ∧
    Proxy.to_capabilities
      { ClassState.initial with proxyType := ProxyType.MANUAL,
                                httpProxy := PyVal.str "proxy.example.com:8080" }
      ⟨Option.none⟩ =
      some [("proxyType", PyVal.str "manual"),
            ("httpProxy", PyVal.str "proxy.example.com:8080")] := by
  decide

/-- C10: assigning the boolean `False` to `auto_detect` on a fresh state
succeeds and still sets `proxyType` to AUTODETECT, yet the serialization
contains `"proxyType": "autodetect"` and no `"autodetect"` key, the stored
`False` being filtered out as falsy. -/
theorem auto_detect_false_sets_type_but_filtered :
    Proxy.runSetter Setter.auto_detect ClassState.initial (PyVal.bool false) =
      (Option.none,
       { ClassState.initial with proxyType := ProxyType.AUTODETECT,
                                 autodetect := PyVal.bool false }) ∧
    Proxy.to_capabilities
      { ClassState.initial with proxyType := ProxyType.AUTODETECT,
                                autodetect := PyVal.bool false }
      ⟨Option.none⟩ =
      some [("proxyType", PyVal.str "autodetect")] := by
  decide
